import Mathlib

/-!
Verification development for a small C++ library of iterative root-finding
and fixed-point methods (`equations-solver.cpp`, `accelerated-solvers.cpp`,
`main.cpp`).  The solvers are embedded shallowly over `ℚ`: the C++ `double`
state becomes exact rationals, user functions become `ℚ → ℚ`, the bounded
`for`/`while` loops become fuel-based recursion (fuel = remaining
iterations), and C++ exceptions become an `Except` value carrying the
exception kind (`std::invalid_argument` / `std::runtime_error`) and its
message string, exactly as thrown by the source.
-/

/-- The two C++ exception kinds the solvers throw, with their message. -/
inductive CppError where
  | invalid_argument : String → CppError
  | runtime_error : String → CppError
deriving DecidableEq, Repr

instance (α : Type) [DecidableEq α] : DecidableEq (Except CppError α) := fun a b =>
  match a, b with
  | .ok x, .ok y => decidable_of_iff (x = y) (by simp)
  | .error e, .error e2 => decidable_of_iff (e = e2) (by simp)
  | .ok _, .error _ => .isFalse (by simp)
  | .error _, .ok _ => .isFalse (by simp)

/-- Loop of `bisection_solver` (equations-solver.cpp lines 43-64): the
`for (int i = 1; i <= maxIterations; i++)` body.  `none` means the loop ran
out of iterations (falls through to the `throw` after the loop). -/
def bisectionLoop (f : ℚ → ℚ) (tolerance : ℚ) : ℕ → ℚ → ℚ → ℚ → Option ℚ
  | 0, _, _, _ => none
  | fuel + 1, a, b, FA =>
    let p := a + (b - a) / 2
    let FP := f p
    if |FP| < tolerance then some p
    else if FA * FP > 0 then bisectionLoop f tolerance fuel p b FP
    else bisectionLoop f tolerance fuel a p FA

/-- `bisection_solver` (equations-solver.cpp lines 28-67). -/
def bisection_solver (leftBound rightBound : ℚ) (f : ℚ → ℚ) (tolerance : ℚ)
    (maxIterations : ℕ) : Except CppError ℚ :=
  let FA := f leftBound
  let FB := f rightBound
  if FA * FB > 0 then
    .error (.invalid_argument
      "The algorithm requires the function values at the boundaries to be of opposite signs.")
  else
    match bisectionLoop f tolerance maxIterations leftBound rightBound FA with
    | some p => .ok p
    | none => .error (.runtime_error
        ("No solution found after " ++ toString maxIterations ++ " iterations."))

/-- Loop of `fixed_point_solver` (equations-solver.cpp lines 88-99). -/
def fixedPointLoop (f : ℚ → ℚ) (tolerance : ℚ) : ℕ → ℚ → Option ℚ
  | 0, _ => none
  | fuel + 1, p0 =>
    let p := f p0
    if |p - p0| < tolerance then some p
    else fixedPointLoop f tolerance fuel p

/-- `fixed_point_solver` (equations-solver.cpp lines 83-101). -/
def fixed_point_solver (p0 : ℚ) (f : ℚ → ℚ) (tolerance : ℚ)
    (maxIterations : ℕ) : Except CppError ℚ :=
  match fixedPointLoop f tolerance maxIterations p0 with
  | some p => .ok p
  | none => .error (.runtime_error
      ("No solution found after " ++ toString maxIterations ++ " steps."))

/-- `numerical_derivative` (equations-solver.cpp lines 114-117), central
difference.  The C++ declaration gives `h` the default value `1e-10`;
callers here pass it explicitly. -/
def numerical_derivative (f : ℚ → ℚ) (x : ℚ) (h : ℚ) : ℚ :=
  (f (x + h) - f (x - h)) / (2 * h)

/-- Loop of `newton_raphson_solver` (equations-solver.cpp lines 141-164);
`maxIterations` is carried for the message of the `throw` after the loop. -/
def newtonLoop (f : ℚ → ℚ) (tolerance : ℚ) (maxIterations : ℕ) :
    ℕ → ℚ → Except CppError ℚ
  | 0, _ => .error (.runtime_error
      ("No solution found after " ++ toString maxIterations ++ " steps."))
  | fuel + 1, p0 =>
    let fp := f p0
    let fPrimeP0 := numerical_derivative f p0 (1 / 10 ^ 10)
    if fPrimeP0 = 0 then
      .error (.invalid_argument
        "Derivative is zero at the current guess; the algorithm cannot proceed.")
    else
      let p := p0 - fp / fPrimeP0
      if |p - p0| < tolerance then .ok p
      else newtonLoop f tolerance maxIterations fuel p

/-- `newton_raphson_solver` (equations-solver.cpp lines 133-166). -/
def newton_raphson_solver (p0 : ℚ) (f : ℚ → ℚ) (tolerance : ℚ)
    (maxIterations : ℕ) : Except CppError ℚ :=
  newtonLoop f tolerance maxIterations maxIterations p0

/-- Loop of `secant_solver` (equations-solver.cpp lines 197-218): `i` runs
from 2 to `maxIterations`, so the fuel is `maxIterations - 1`. -/
def secantLoop (f : ℚ → ℚ) (tolerance : ℚ) : ℕ → ℚ → ℚ → ℚ → ℚ → Option ℚ
  | 0, _, _, _, _ => none
  | fuel + 1, p0, p1, q0, q1 =>
    let p := p1 - q1 * (p1 - p0) / (q1 - q0)
    if |p - p0| < tolerance then some p
    else secantLoop f tolerance fuel p1 p q1 (f p)

/-- `secant_solver` (equations-solver.cpp lines 187-221). -/
def secant_solver (p0 p1 : ℚ) (f : ℚ → ℚ) (tolerance : ℚ)
    (maxIterations : ℕ) : Except CppError ℚ :=
  match secantLoop f tolerance (maxIterations - 1) p0 p1 (f p0) (f p1) with
  | some p => .ok p
  | none => .error (.runtime_error
      ("No solution found after " ++ toString maxIterations ++ " steps."))

/-- Loop of `false_position_solver` (equations-solver.cpp lines 260-285):
`i` runs from 2 to `maxIterations`, so the fuel is `maxIterations - 1`. -/
def falsePositionLoop (f : ℚ → ℚ) (tolerance : ℚ) :
    ℕ → ℚ → ℚ → ℚ → ℚ → Option ℚ
  | 0, _, _, _, _ => none
  | fuel + 1, p0, p1, q0, q1 =>
    let p := p1 - q1 * (p1 - p0) / (q1 - q0)
    if |p - p1| < tolerance then some p
    else
      let q := f p
      if q * q1 < 0 then falsePositionLoop f tolerance fuel p1 p q1 q
      else falsePositionLoop f tolerance fuel p0 p q0 q

/-- `false_position_solver` (equations-solver.cpp lines 245-288). -/
def false_position_solver (p0 p1 : ℚ) (f : ℚ → ℚ) (tolerance : ℚ)
    (maxIterations : ℕ) : Except CppError ℚ :=
  let q0 := f p0
  let q1 := f p1
  if q0 * q1 > 0 then
    .error (.invalid_argument
      "The algorithm requires the function values at the initial points to have opposite signs.")
  else
    match falsePositionLoop f tolerance (maxIterations - 1) p0 p1 q0 q1 with
    | some p => .ok p
    | none => .error (.runtime_error
        ("No solution found after " ++ toString maxIterations ++ " steps."))

/-- The same control flow as `falsePositionLoop`, recording the pair
`(p0, p1)` held after each iteration's update of the bracket (lines
275-284 of equations-solver.cpp): used to state the bracket invariant
"after every iteration of the loop". -/
def falsePositionTrace (f : ℚ → ℚ) (tolerance : ℚ) :
    ℕ → ℚ → ℚ → ℚ → ℚ → List (ℚ × ℚ)
  | 0, _, _, _, _ => []
  | fuel + 1, p0, p1, q0, q1 =>
    let p := p1 - q1 * (p1 - p0) / (q1 - q0)
    if |p - p1| < tolerance then []
    else
      let q := f p
      if q * q1 < 0 then (p1, p) :: falsePositionTrace f tolerance fuel p1 p q1 q
      else (p0, p) :: falsePositionTrace f tolerance fuel p0 p q0 q

/-- Loop of `steffensen_solver` (accelerated-solvers.cpp lines 39-64); the
iteration counter `i` of the source equals `maxIterations - fuel` and
appears in the near-zero-denominator message. -/
def steffensenLoop (f : ℚ → ℚ) (tolerance : ℚ) (maxIterations : ℕ) :
    ℕ → ℚ → Except CppError ℚ
  | 0, _ => .error (.runtime_error
      ("No solution found after " ++ toString maxIterations ++ " iterations."))
  | fuel + 1, p0 =>
    let i := maxIterations - fuel
    let p1 := f p0
    let p2 := f p1
    let denominator := p2 - 2 * p1 + p0
    if |denominator| < 1 / 10 ^ 12 then
      .error (.runtime_error
        ("Denominator near zero, method fails at iteration " ++ toString i))
    else
      let p := p0 - (p1 - p0) * (p1 - p0) / denominator
      if |p - p0| < tolerance then .ok p
      else steffensenLoop f tolerance maxIterations fuel p

/-- `steffensen_solver` (accelerated-solvers.cpp lines 29-68). -/
def steffensen_solver (initialPoint : ℚ) (f : ℚ → ℚ) (tolerance : ℚ)
    (maxIterations : ℕ) : Except CppError ℚ :=
  steffensenLoop f tolerance maxIterations maxIterations initialPoint

/-- `func_test` (main.cpp lines 7-9): f(x) = x³ + 4x² − 10. -/
def func_test (x : ℚ) : ℚ := x * x * x + 4 * x * x - 10

/-- One unfolding of `bisectionLoop` in the converged case. -/
theorem bisection_step_conv (f : ℚ → ℚ) (tol : ℚ) (n m : ℕ) (a b FA p FP : ℚ)
    (hnm : m + 1 = n) (hp : a + (b - a) / 2 = p) (hFP : f p = FP)
    (hconv : |FP| < tol) :
    bisectionLoop f tol n a b FA = some p := by
  subst hnm hp hFP
  simp [bisectionLoop, hconv]

/-- One unfolding of `bisectionLoop` in the a := p case. -/
theorem bisection_step_then (f : ℚ → ℚ) (tol : ℚ) (n m : ℕ) (a b FA p FP : ℚ)
    (hnm : m + 1 = n) (hp : a + (b - a) / 2 = p) (hFP : f p = FP)
    (hconv : ¬ |FP| < tol) (hsign : FA * FP > 0) :
    bisectionLoop f tol n a b FA = bisectionLoop f tol m p b FP := by
  subst hnm hp hFP
  simp [bisectionLoop, hconv, hsign]

/-- One unfolding of `bisectionLoop` in the b := p case. -/
theorem bisection_step_else (f : ℚ → ℚ) (tol : ℚ) (n m : ℕ) (a b FA p FP : ℚ)
    (hnm : m + 1 = n) (hp : a + (b - a) / 2 = p) (hFP : f p = FP)
    (hconv : ¬ |FP| < tol) (hsign : ¬ FA * FP > 0) :
    bisectionLoop f tol n a b FA = bisectionLoop f tol m a p FA := by
  subst hnm hp hFP
  simp [bisectionLoop, hconv, hsign]

/-- Running out of iterations earlier can only keep the loop unsuccessful. -/
theorem bisectionLoop_none_mono (f : ℚ → ℚ) (tol : ℚ) :
    ∀ m n, n ≤ m → ∀ a b FA, bisectionLoop f tol m a b FA = none →
      bisectionLoop f tol n a b FA = none := by
  intro m
  induction m with
  | zero =>
    intro n hn a b FA h
    obtain rfl := Nat.le_zero.mp hn
    exact h
  | succ m ih =>
    intro n hn a b FA h
    cases n with
    | zero => simp [bisectionLoop]
    | succ k =>
      have hk : k ≤ m := Nat.succ_le_succ_iff.mp hn
      simp only [bisectionLoop] at h ⊢
      by_cases hconv : |f (a + (b - a) / 2)| < tol
      · rw [if_pos hconv] at h
        exact absurd h (by simp)
      · rw [if_neg hconv] at h ⊢
        by_cases hsign : FA * f (a + (b - a) / 2) > 0
        · rw [if_pos hsign] at h ⊢
          exact ih k hk _ _ _ h
        · rw [if_neg hsign] at h ⊢
          exact ih k hk _ _ _ h

/-- The exact 23-iteration bisection run for f(x) = x³ + 4x² − 10 on [1, 2]
with tolerance 1e-6: the residual test first passes at iteration 23. -/
theorem bisectionRun_fuel23 :
    bisectionLoop func_test (1 / 1000000) 23 1 2 (func_test 1) = some ((11452379 : ℚ) / 8388608) := by
  have hFA : func_test 1 = (-5 : ℚ) := by norm_num [func_test]
  rw [hFA]
  rw [bisection_step_else func_test (1 / 1000000) 23 22 (1 : ℚ) (2 : ℚ) (-5 : ℚ) ((3 : ℚ) / 2) ((19 : ℚ) / 8) (by norm_num) (by norm_num) (by norm_num [func_test]) (by rw [abs_of_pos (show (0 : ℚ) < ((19 : ℚ) / 8) by norm_num)]; norm_num) (by norm_num)]
  rw [bisection_step_then func_test (1 / 1000000) 22 21 (1 : ℚ) ((3 : ℚ) / 2) (-5 : ℚ) ((5 : ℚ) / 4) ((-115 : ℚ) / 64) (by norm_num) (by norm_num) (by norm_num [func_test]) (by rw [abs_of_neg (show ((-115 : ℚ) / 64) < 0 by norm_num)]; norm_num) (by norm_num)]
  rw [bisection_step_else func_test (1 / 1000000) 21 20 ((5 : ℚ) / 4) ((3 : ℚ) / 2) ((-115 : ℚ) / 64) ((11 : ℚ) / 8) ((83 : ℚ) / 512) (by norm_num) (by norm_num) (by norm_num [func_test]) (by rw [abs_of_pos (show (0 : ℚ) < ((83 : ℚ) / 512) by norm_num)]; norm_num) (by norm_num)]
  rw [bisection_step_then func_test (1 / 1000000) 20 19 ((5 : ℚ) / 4) ((11 : ℚ) / 8) ((-115 : ℚ) / 64) ((21 : ℚ) / 16) ((-3475 : ℚ) / 4096) (by norm_num) (by norm_num) (by norm_num [func_test]) (by rw [abs_of_neg (show ((-3475 : ℚ) / 4096) < 0 by norm_num)]; norm_num) (by norm_num)]
  rw [bisection_step_then func_test (1 / 1000000) 19 18 ((21 : ℚ) / 16) ((11 : ℚ) / 8) ((-3475 : ℚ) / 4096) ((43 : ℚ) / 32) ((-11501 : ℚ) / 32768) (by norm_num) (by norm_num) (by norm_num [func_test]) (by rw [abs_of_neg (show ((-11501 : ℚ) / 32768) < 0 by norm_num)]; norm_num) (by norm_num)]
  rw [bisection_step_then func_test (1 / 1000000) 18 17 ((43 : ℚ) / 32) ((11 : ℚ) / 8) ((-11501 : ℚ) / 32768) ((87 : ℚ) / 64) ((-25273 : ℚ) / 262144) (by norm_num) (by norm_num) (by norm_num [func_test]) (by rw [abs_of_neg (show ((-25273 : ℚ) / 262144) < 0 by norm_num)]; norm_num) (by norm_num)]
  rw [bisection_step_else func_test (1 / 1000000) 17 16 ((87 : ℚ) / 64) ((11 : ℚ) / 8) ((-25273 : ℚ) / 262144) ((175 : ℚ) / 128) ((67855 : ℚ) / 2097152) (by norm_num) (by norm_num) (by norm_num [func_test]) (by rw [abs_of_pos (show (0 : ℚ) < ((67855 : ℚ) / 2097152) by norm_num)]; norm_num) (by norm_num)]
  rw [bisection_step_then func_test (1 / 1000000) 16 15 ((87 : ℚ) / 64) ((175 : ℚ) / 128) ((-25273 : ℚ) / 262144) ((349 : ℚ) / 256) ((-539387 : ℚ) / 16777216) (by norm_num) (by norm_num) (by norm_num [func_test]) (by rw [abs_of_neg (show ((-539387 : ℚ) / 16777216) < 0 by norm_num)]; norm_num) (by norm_num)]
  rw [bisection_step_else func_test (1 / 1000000) 15 14 ((349 : ℚ) / 256) ((175 : ℚ) / 128) ((-539387 : ℚ) / 16777216) ((699 : ℚ) / 512) ((9667 : ℚ) / 134217728) (by norm_num) (by norm_num) (by norm_num [func_test]) (by rw [abs_of_pos (show (0 : ℚ) < ((9667 : ℚ) / 134217728) by norm_num)]; norm_num) (by norm_num)]
  rw [bisection_step_then func_test (1 / 1000000) 14 13 ((349 : ℚ) / 256) ((699 : ℚ) / 512) ((-539387 : ℚ) / 16777216) ((1397 : ℚ) / 1024) ((-17230003 : ℚ) / 1073741824) (by norm_num) (by norm_num) (by norm_num [func_test]) (by rw [abs_of_neg (show ((-17230003 : ℚ) / 1073741824) < 0 by norm_num)]; norm_num) (by norm_num)]
  rw [bisection_step_then func_test (1 / 1000000) 13 12 ((1397 : ℚ) / 1024) ((699 : ℚ) / 512) ((-17230003 : ℚ) / 1073741824) ((2795 : ℚ) / 2048) ((-68627245 : ℚ) / 8589934592) (by norm_num) (by norm_num) (by norm_num [func_test]) (by rw [abs_of_neg (show ((-68627245 : ℚ) / 8589934592) < 0 by norm_num)]; norm_num) (by norm_num)]
  rw [bisection_step_then func_test (1 / 1000000) 12 11 ((2795 : ℚ) / 2048) ((699 : ℚ) / 512) ((-68627245 : ℚ) / 8589934592) ((5591 : ℚ) / 4096) ((-272067385 : ℚ) / 68719476736) (by norm_num) (by norm_num) (by norm_num [func_test]) (by rw [abs_of_neg (show ((-272067385 : ℚ) / 68719476736) < 0 by norm_num)]; norm_num) (by norm_num)]
  rw [bisection_step_then func_test (1 / 1000000) 11 10 ((5591 : ℚ) / 4096) ((699 : ℚ) / 512) ((-272067385 : ℚ) / 68719476736) ((11183 : ℚ) / 8192) ((-1068537841 : ℚ) / 549755813888) (by norm_num) (by norm_num) (by norm_num [func_test]) (by rw [abs_of_neg (show ((-1068537841 : ℚ) / 549755813888) < 0 by norm_num)]; norm_num) (by norm_num)]
  rw [bisection_step_then func_test (1 / 1000000) 10 9 ((11183 : ℚ) / 8192) ((699 : ℚ) / 512) ((-1068537841 : ℚ) / 549755813888) ((22367 : ℚ) / 16384) ((-4115899873 : ℚ) / 4398046511104) (by norm_num) (by norm_num) (by norm_num [func_test]) (by rw [abs_of_neg (show ((-4115899873 : ℚ) / 4398046511104) < 0 by norm_num)]; norm_num) (by norm_num)]
  rw [bisection_step_then func_test (1 / 1000000) 9 8 ((22367 : ℚ) / 16384) ((699 : ℚ) / 512) ((-4115899873 : ℚ) / 4398046511104) ((44735 : ℚ) / 32768) ((-15196791745 : ℚ) / 35184372088832) (by norm_num) (by norm_num) (by norm_num [func_test]) (by rw [abs_of_neg (show ((-15196791745 : ℚ) / 35184372088832) < 0 by norm_num)]; norm_num) (by norm_num)]
  rw [bisection_step_then func_test (1 / 1000000) 8 7 ((44735 : ℚ) / 32768) ((699 : ℚ) / 512) ((-15196791745 : ℚ) / 35184372088832) ((89471 : ℚ) / 65536) ((-50651113345 : ℚ) / 281474976710656) (by norm_num) (by norm_num) (by norm_num [func_test]) (by rw [abs_of_neg (show ((-50651113345 : ℚ) / 281474976710656) < 0 by norm_num)]; norm_num) (by norm_num)]
  rw [bisection_step_then func_test (1 / 1000000) 7 6 ((89471 : ℚ) / 65536) ((699 : ℚ) / 512) ((-50651113345 : ℚ) / 281474976710656) ((178943 : ℚ) / 131072) ((-121512840961 : ℚ) / 2251799813685248) (by norm_num) (by norm_num) (by norm_num [func_test]) (by rw [abs_of_neg (show ((-121512840961 : ℚ) / 2251799813685248) < 0 by norm_num)]; norm_num) (by norm_num)]
  rw [bisection_step_else func_test (1 / 1000000) 6 5 ((178943 : ℚ) / 131072) ((699 : ℚ) / 512) ((-121512840961 : ℚ) / 2251799813685248) ((357887 : ℚ) / 262144) ((162687902207 : ℚ) / 18014398509481984) (by norm_num) (by norm_num) (by norm_num [func_test]) (by rw [abs_of_pos (show (0 : ℚ) < ((162687902207 : ℚ) / 18014398509481984) by norm_num)]; norm_num) (by norm_num)]
  rw [bisection_step_then func_test (1 / 1000000) 5 4 ((178943 : ℚ) / 131072) ((357887 : ℚ) / 262144) ((-121512840961 : ℚ) / 2251799813685248) ((715773 : ℚ) / 524288) ((-3237663546395 : ℚ) / 144115188075855872) (by norm_num) (by norm_num) (by norm_num [func_test]) (by rw [abs_of_neg (show ((-3237663546395 : ℚ) / 144115188075855872) < 0 by norm_num)]; norm_num) (by norm_num)]
  rw [bisection_step_then func_test (1 / 1000000) 4 3 ((715773 : ℚ) / 524288) ((357887 : ℚ) / 262144) ((-3237663546395 : ℚ) / 144115188075855872) ((1431547 : ℚ) / 1048576) ((-7744649803901 : ℚ) / 1152921504606846976) (by norm_num) (by norm_num) (by norm_num [func_test]) (by rw [abs_of_neg (show ((-7744649803901 : ℚ) / 1152921504606846976) < 0 by norm_num)]; norm_num) (by norm_num)]
  rw [bisection_step_else func_test (1 / 1000000) 3 2 ((1431547 : ℚ) / 1048576) ((357887 : ℚ) / 262144) ((-7744649803901 : ℚ) / 1152921504606846976) ((2863095 : ℚ) / 2097152) ((10669486771495 : ℚ) / 9223372036854775808) (by norm_num) (by norm_num) (by norm_num [func_test]) (by rw [abs_of_pos (show (0 : ℚ) < ((10669486771495 : ℚ) / 9223372036854775808) by norm_num)]; norm_num) (by norm_num)]
  rw [bisection_step_then func_test (1 / 1000000) 2 1 ((1431547 : ℚ) / 1048576) ((2863095 : ℚ) / 2097152) ((-7744649803901 : ℚ) / 1152921504606846976) ((5726189 : ℚ) / 4194304) ((-205150880594635 : ℚ) / 73786976294838206464) (by norm_num) (by norm_num) (by norm_num [func_test]) (by rw [abs_of_neg (show ((-205150880594635 : ℚ) / 73786976294838206464) < 0 by norm_num)]; norm_num) (by norm_num)]
  exact bisection_step_conv func_test (1 / 1000000) 1 0 ((5726189 : ℚ) / 4194304) ((2863095 : ℚ) / 2097152) ((-205150880594635 : ℚ) / 73786976294838206464) ((11452379 : ℚ) / 8388608) ((-479180013602269 : ℚ) / 590295810358705651712) (by norm_num) (by norm_num) (by norm_num [func_test]) (by rw [abs_of_neg (show ((-479180013602269 : ℚ) / 590295810358705651712) < 0 by norm_num)]; norm_num)

/-- With only 22 iterations of fuel the same run is still above tolerance. -/
theorem bisectionRun_fuel22 :
    bisectionLoop func_test (1 / 1000000) 22 1 2 (func_test 1) = none := by
  have hFA : func_test 1 = (-5 : ℚ) := by norm_num [func_test]
  rw [hFA]
  rw [bisection_step_else func_test (1 / 1000000) 22 21 (1 : ℚ) (2 : ℚ) (-5 : ℚ) ((3 : ℚ) / 2) ((19 : ℚ) / 8) (by norm_num) (by norm_num) (by norm_num [func_test]) (by rw [abs_of_pos (show (0 : ℚ) < ((19 : ℚ) / 8) by norm_num)]; norm_num) (by norm_num)]
  rw [bisection_step_then func_test (1 / 1000000) 21 20 (1 : ℚ) ((3 : ℚ) / 2) (-5 : ℚ) ((5 : ℚ) / 4) ((-115 : ℚ) / 64) (by norm_num) (by norm_num) (by norm_num [func_test]) (by rw [abs_of_neg (show ((-115 : ℚ) / 64) < 0 by norm_num)]; norm_num) (by norm_num)]
  rw [bisection_step_else func_test (1 / 1000000) 20 19 ((5 : ℚ) / 4) ((3 : ℚ) / 2) ((-115 : ℚ) / 64) ((11 : ℚ) / 8) ((83 : ℚ) / 512) (by norm_num) (by norm_num) (by norm_num [func_test]) (by rw [abs_of_pos (show (0 : ℚ) < ((83 : ℚ) / 512) by norm_num)]; norm_num) (by norm_num)]
  rw [bisection_step_then func_test (1 / 1000000) 19 18 ((5 : ℚ) / 4) ((11 : ℚ) / 8) ((-115 : ℚ) / 64) ((21 : ℚ) / 16) ((-3475 : ℚ) / 4096) (by norm_num) (by norm_num) (by norm_num [func_test]) (by rw [abs_of_neg (show ((-3475 : ℚ) / 4096) < 0 by norm_num)]; norm_num) (by norm_num)]
  rw [bisection_step_then func_test (1 / 1000000) 18 17 ((21 : ℚ) / 16) ((11 : ℚ) / 8) ((-3475 : ℚ) / 4096) ((43 : ℚ) / 32) ((-11501 : ℚ) / 32768) (by norm_num) (by norm_num) (by norm_num [func_test]) (by rw [abs_of_neg (show ((-11501 : ℚ) / 32768) < 0 by norm_num)]; norm_num) (by norm_num)]
  rw [bisection_step_then func_test (1 / 1000000) 17 16 ((43 : ℚ) / 32) ((11 : ℚ) / 8) ((-11501 : ℚ) / 32768) ((87 : ℚ) / 64) ((-25273 : ℚ) / 262144) (by norm_num) (by norm_num) (by norm_num [func_test]) (by rw [abs_of_neg (show ((-25273 : ℚ) / 262144) < 0 by norm_num)]; norm_num) (by norm_num)]
  rw [bisection_step_else func_test (1 / 1000000) 16 15 ((87 : ℚ) / 64) ((11 : ℚ) / 8) ((-25273 : ℚ) / 262144) ((175 : ℚ) / 128) ((67855 : ℚ) / 2097152) (by norm_num) (by norm_num) (by norm_num [func_test]) (by rw [abs_of_pos (show (0 : ℚ) < ((67855 : ℚ) / 2097152) by norm_num)]; norm_num) (by norm_num)]
  rw [bisection_step_then func_test (1 / 1000000) 15 14 ((87 : ℚ) / 64) ((175 : ℚ) / 128) ((-25273 : ℚ) / 262144) ((349 : ℚ) / 256) ((-539387 : ℚ) / 16777216) (by norm_num) (by norm_num) (by norm_num [func_test]) (by rw [abs_of_neg (show ((-539387 : ℚ) / 16777216) < 0 by norm_num)]; norm_num) (by norm_num)]
  rw [bisection_step_else func_test (1 / 1000000) 14 13 ((349 : ℚ) / 256) ((175 : ℚ) / 128) ((-539387 : ℚ) / 16777216) ((699 : ℚ) / 512) ((9667 : ℚ) / 134217728) (by norm_num) (by norm_num) (by norm_num [func_test]) (by rw [abs_of_pos (show (0 : ℚ) < ((9667 : ℚ) / 134217728) by norm_num)]; norm_num) (by norm_num)]
  rw [bisection_step_then func_test (1 / 1000000) 13 12 ((349 : ℚ) / 256) ((699 : ℚ) / 512) ((-539387 : ℚ) / 16777216) ((1397 : ℚ) / 1024) ((-17230003 : ℚ) / 1073741824) (by norm_num) (by norm_num) (by norm_num [func_test]) (by rw [abs_of_neg (show ((-17230003 : ℚ) / 1073741824) < 0 by norm_num)]; norm_num) (by norm_num)]
  rw [bisection_step_then func_test (1 / 1000000) 12 11 ((1397 : ℚ) / 1024) ((699 : ℚ) / 512) ((-17230003 : ℚ) / 1073741824) ((2795 : ℚ) / 2048) ((-68627245 : ℚ) / 8589934592) (by norm_num) (by norm_num) (by norm_num [func_test]) (by rw [abs_of_neg (show ((-68627245 : ℚ) / 8589934592) < 0 by norm_num)]; norm_num) (by norm_num)]
  rw [bisection_step_then func_test (1 / 1000000) 11 10 ((2795 : ℚ) / 2048) ((699 : ℚ) / 512) ((-68627245 : ℚ) / 8589934592) ((5591 : ℚ) / 4096) ((-272067385 : ℚ) / 68719476736) (by norm_num) (by norm_num) (by norm_num [func_test]) (by rw [abs_of_neg (show ((-272067385 : ℚ) / 68719476736) < 0 by norm_num)]; norm_num) (by norm_num)]
  rw [bisection_step_then func_test (1 / 1000000) 10 9 ((5591 : ℚ) / 4096) ((699 : ℚ) / 512) ((-272067385 : ℚ) / 68719476736) ((11183 : ℚ) / 8192) ((-1068537841 : ℚ) / 549755813888) (by norm_num) (by norm_num) (by norm_num [func_test]) (by rw [abs_of_neg (show ((-1068537841 : ℚ) / 549755813888) < 0 by norm_num)]; norm_num) (by norm_num)]
  rw [bisection_step_then func_test (1 / 1000000) 9 8 ((11183 : ℚ) / 8192) ((699 : ℚ) / 512) ((-1068537841 : ℚ) / 549755813888) ((22367 : ℚ) / 16384) ((-4115899873 : ℚ) / 4398046511104) (by norm_num) (by norm_num) (by norm_num [func_test]) (by rw [abs_of_neg (show ((-4115899873 : ℚ) / 4398046511104) < 0 by norm_num)]; norm_num) (by norm_num)]
  rw [bisection_step_then func_test (1 / 1000000) 8 7 ((22367 : ℚ) / 16384) ((699 : ℚ) / 512) ((-4115899873 : ℚ) / 4398046511104) ((44735 : ℚ) / 32768) ((-15196791745 : ℚ) / 35184372088832) (by norm_num) (by norm_num) (by norm_num [func_test]) (by rw [abs_of_neg (show ((-15196791745 : ℚ) / 35184372088832) < 0 by norm_num)]; norm_num) (by norm_num)]
  rw [bisection_step_then func_test (1 / 1000000) 7 6 ((44735 : ℚ) / 32768) ((699 : ℚ) / 512) ((-15196791745 : ℚ) / 35184372088832) ((89471 : ℚ) / 65536) ((-50651113345 : ℚ) / 281474976710656) (by norm_num) (by norm_num) (by norm_num [func_test]) (by rw [abs_of_neg (show ((-50651113345 : ℚ) / 281474976710656) < 0 by norm_num)]; norm_num) (by norm_num)]
  rw [bisection_step_then func_test (1 / 1000000) 6 5 ((89471 : ℚ) / 65536) ((699 : ℚ) / 512) ((-50651113345 : ℚ) / 281474976710656) ((178943 : ℚ) / 131072) ((-121512840961 : ℚ) / 2251799813685248) (by norm_num) (by norm_num) (by norm_num [func_test]) (by rw [abs_of_neg (show ((-121512840961 : ℚ) / 2251799813685248) < 0 by norm_num)]; norm_num) (by norm_num)]
  rw [bisection_step_else func_test (1 / 1000000) 5 4 ((178943 : ℚ) / 131072) ((699 : ℚ) / 512) ((-121512840961 : ℚ) / 2251799813685248) ((357887 : ℚ) / 262144) ((162687902207 : ℚ) / 18014398509481984) (by norm_num) (by norm_num) (by norm_num [func_test]) (by rw [abs_of_pos (show (0 : ℚ) < ((162687902207 : ℚ) / 18014398509481984) by norm_num)]; norm_num) (by norm_num)]
  rw [bisection_step_then func_test (1 / 1000000) 4 3 ((178943 : ℚ) / 131072) ((357887 : ℚ) / 262144) ((-121512840961 : ℚ) / 2251799813685248) ((715773 : ℚ) / 524288) ((-3237663546395 : ℚ) / 144115188075855872) (by norm_num) (by norm_num) (by norm_num [func_test]) (by rw [abs_of_neg (show ((-3237663546395 : ℚ) / 144115188075855872) < 0 by norm_num)]; norm_num) (by norm_num)]
  rw [bisection_step_then func_test (1 / 1000000) 3 2 ((715773 : ℚ) / 524288) ((357887 : ℚ) / 262144) ((-3237663546395 : ℚ) / 144115188075855872) ((1431547 : ℚ) / 1048576) ((-7744649803901 : ℚ) / 1152921504606846976) (by norm_num) (by norm_num) (by norm_num [func_test]) (by rw [abs_of_neg (show ((-7744649803901 : ℚ) / 1152921504606846976) < 0 by norm_num)]; norm_num) (by norm_num)]
  rw [bisection_step_else func_test (1 / 1000000) 2 1 ((1431547 : ℚ) / 1048576) ((357887 : ℚ) / 262144) ((-7744649803901 : ℚ) / 1152921504606846976) ((2863095 : ℚ) / 2097152) ((10669486771495 : ℚ) / 9223372036854775808) (by norm_num) (by norm_num) (by norm_num [func_test]) (by rw [abs_of_pos (show (0 : ℚ) < ((10669486771495 : ℚ) / 9223372036854775808) by norm_num)]; norm_num) (by norm_num)]
  rw [bisection_step_then func_test (1 / 1000000) 1 0 ((1431547 : ℚ) / 1048576) ((2863095 : ℚ) / 2097152) ((-7744649803901 : ℚ) / 1152921504606846976) ((5726189 : ℚ) / 4194304) ((-205150880594635 : ℚ) / 73786976294838206464) (by norm_num) (by norm_num) (by norm_num [func_test]) (by rw [abs_of_neg (show ((-205150880594635 : ℚ) / 73786976294838206464) < 0 by norm_num)]; norm_num) (by norm_num)]
  rfl


/-- C1: bisection iterates by computing the midpoint p = a + (b − a)/2 and
evaluating f(p); if |f(p)| < tolerance it returns p immediately (residual
test); otherwise it replaces the bound whose cached value shares the sign of
f(p) (a when FA·f(p) > 0, else b), so the bracket width exactly halves; if
maxIterations iterations elapse without |f(p)| < tolerance, the solver
raises the ConvergenceFailure runtime error. -/
theorem bisection_iteration_structure (f : ℚ → ℚ) (leftBound rightBound tolerance : ℚ)
    (maxIterations fuel : ℕ) (a b FA : ℚ)
    (hlr : leftBound ≤ rightBound)
    (hpre : f leftBound * f rightBound ≤ 0)
    (htol : 0 < tolerance) (hmax : 1 ≤ maxIterations) :
    (|f (a + (b - a) / 2)| < tolerance →
      bisectionLoop f tolerance (fuel + 1) a b FA = some (a + (b - a) / 2)) ∧
    (¬ |f (a + (b - a) / 2)| < tolerance → FA * f (a + (b - a) / 2) > 0 →
      bisectionLoop f tolerance (fuel + 1) a b FA
        = bisectionLoop f tolerance fuel (a + (b - a) / 2) b (f (a + (b - a) / 2)) ∧
      b - (a + (b - a) / 2) = (b - a) / 2) ∧
    (¬ |f (a + (b - a) / 2)| < tolerance → ¬ FA * f (a + (b - a) / 2) > 0 →
      bisectionLoop f tolerance (fuel + 1) a b FA
        = bisectionLoop f tolerance fuel a (a + (b - a) / 2) FA ∧
      (a + (b - a) / 2) - a = (b - a) / 2) ∧
    (bisectionLoop f tolerance maxIterations leftBound rightBound (f leftBound) = none →
      bisection_solver leftBound rightBound f tolerance maxIterations
        = .error (.runtime_error
            ("No solution found after " ++ toString maxIterations ++ " iterations."))) := by
  refine ⟨?_, ?_, ?_, ?_⟩
  · intro h
    simp [bisectionLoop, h]
  · intro h1 h2
    refine ⟨?_, by ring⟩
    simp [bisectionLoop, h1, h2]
  · intro h1 h2
    refine ⟨?_, by ring⟩
    simp [bisectionLoop, h1, h2]
  · intro hnone
    have hngt : ¬ f leftBound * f rightBound > 0 := not_lt.mpr hpre
    simp [bisection_solver, hngt, hnone]

/-- Witness for C1 at f(x) = x³ + 4x² − 10 on [1, 2]. -/
theorem bisection_iteration_structure_witness :
    (|func_test (1 + (2 - 1) / 2)| < 1 / 1000000 →
      bisectionLoop func_test (1 / 1000000) (3 + 1) 1 2 (func_test 1)
        = some (1 + (2 - 1) / 2)) ∧
    (¬ |func_test (1 + (2 - 1) / 2)| < 1 / 1000000 →
      func_test 1 * func_test (1 + (2 - 1) / 2) > 0 →
      bisectionLoop func_test (1 / 1000000) (3 + 1) 1 2 (func_test 1)
        = bisectionLoop func_test (1 / 1000000) 3 (1 + (2 - 1) / 2) 2
            (func_test (1 + (2 - 1) / 2)) ∧
      (2 : ℚ) - (1 + (2 - 1) / 2) = (2 - 1) / 2) ∧
    (¬ |func_test (1 + (2 - 1) / 2)| < 1 / 1000000 →
      ¬ func_test 1 * func_test (1 + (2 - 1) / 2) > 0 →
      bisectionLoop func_test (1 / 1000000) (3 + 1) 1 2 (func_test 1)
        = bisectionLoop func_test (1 / 1000000) 3 1 (1 + (2 - 1) / 2) (func_test 1) ∧
      ((1 : ℚ) + (2 - 1) / 2) - 1 = (2 - 1) / 2) ∧
    (bisectionLoop func_test (1 / 1000000) 20 1 2 (func_test 1) = none →
      bisection_solver 1 2 func_test (1 / 1000000) 20
        = .error (.runtime_error
            ("No solution found after " ++ toString 20 ++ " iterations."))) :=
  bisection_iteration_structure func_test 1 2 (1 / 1000000) 20 3 1 2 (func_test 1)
    (by norm_num) (by norm_num [func_test]) (by norm_num) (by norm_num)

/-- C4: bisection_solver raises the InvalidArgument error exactly when
f(leftBound)·f(rightBound) > 0 strictly; when the product is ≤ 0 (including
a zero at either end) the precondition check passes and the result is
whatever the iteration loop produces. -/
theorem bisection_precondition_iff (leftBound rightBound : ℚ) (f : ℚ → ℚ)
    (tolerance : ℚ) (maxIterations : ℕ) :
    (bisection_solver leftBound rightBound f tolerance maxIterations
        = .error (.invalid_argument
            ("The algorithm requires the function values at the boundaries to be of opposite signs."))
      ↔ f leftBound * f rightBound > 0) ∧
    (f leftBound * f rightBound ≤ 0 →
      bisection_solver leftBound rightBound f tolerance maxIterations
        = match bisectionLoop f tolerance maxIterations leftBound rightBound (f leftBound) with
          | some p => .ok p
          | none => .error (.runtime_error
              ("No solution found after " ++ toString maxIterations ++ " iterations."))) := by
  constructor
  · constructor
    · intro h
      by_contra hngt
      rcases hloop : bisectionLoop f tolerance maxIterations leftBound rightBound (f leftBound) with _ | p
      · simp [bisection_solver, hngt, hloop] at h
      · simp [bisection_solver, hngt, hloop] at h
    · intro h
      simp [bisection_solver, h]
  · intro h
    have hngt : ¬ f leftBound * f rightBound > 0 := not_lt.mpr h
    simp [bisection_solver, hngt]

/-- Witness for C4 at f(x) = x³ + 4x² − 10 on [1, 2]. -/
theorem bisection_precondition_iff_witness :
    ((bisection_solver 1 2 func_test (1 / 1000000) 5
        = .error (.invalid_argument
            ("The algorithm requires the function values at the boundaries to be of opposite signs."))
      ↔ func_test 1 * func_test 2 > 0) ∧
    (func_test 1 * func_test 2 ≤ 0 →
      bisection_solver 1 2 func_test (1 / 1000000) 5
        = match bisectionLoop func_test (1 / 1000000) 5 1 2 (func_test 1) with
          | some p => .ok p
          | none => .error (.runtime_error
              ("No solution found after " ++ toString 5 ++ " iterations.")))) :=
  bisection_precondition_iff 1 2 func_test (1 / 1000000) 5

/-- Every `some` result of the bisection loop lies inside the current
bracket, provided the bracket is ordered. -/
theorem bisectionLoop_mem_of_le (f : ℚ → ℚ) (tolerance : ℚ) :
    ∀ fuel (a b FA p : ℚ), a ≤ b →
      bisectionLoop f tolerance fuel a b FA = some p → a ≤ p ∧ p ≤ b := by
  intro fuel
  induction fuel with
  | zero => intro a b FA p _ h; simp [bisectionLoop] at h
  | succ n ih =>
    intro a b FA p hab h
    have hmid1 : a ≤ a + (b - a) / 2 := by linarith
    have hmid2 : a + (b - a) / 2 ≤ b := by linarith
    simp only [bisectionLoop] at h
    by_cases hconv : |f (a + (b - a) / 2)| < tolerance
    · rw [if_pos hconv] at h
      obtain rfl : a + (b - a) / 2 = p := Option.some.inj h
      exact ⟨hmid1, hmid2⟩
    · rw [if_neg hconv] at h
      by_cases hsign : FA * f (a + (b - a) / 2) > 0
      · rw [if_pos hsign] at h
        obtain ⟨h1, h2⟩ := ih (a + (b - a) / 2) b (f (a + (b - a) / 2)) p hmid2 h
        exact ⟨le_trans hmid1 h1, h2⟩
      · rw [if_neg hsign] at h
        obtain ⟨h1, h2⟩ := ih a (a + (b - a) / 2) FA p hmid1 h
        exact ⟨h1, le_trans h2 hmid2⟩

/-- C10: a successful bisection run on an ordered interval returns a value
inside the initial interval. -/
theorem bisection_result_in_interval (leftBound rightBound : ℚ) (f : ℚ → ℚ)
    (tolerance : ℚ) (maxIterations : ℕ) (p : ℚ)
    (hab : leftBound ≤ rightBound)
    (hok : bisection_solver leftBound rightBound f tolerance maxIterations = .ok p) :
    leftBound ≤ p ∧ p ≤ rightBound := by
  by_cases hpre : f leftBound * f rightBound > 0
  · simp [bisection_solver, hpre] at hok
  · rcases hloop : bisectionLoop f tolerance maxIterations leftBound rightBound (f leftBound)
      with _ | q
    · simp [bisection_solver, hpre, hloop] at hok
    · have hq : q = p := by simpa [bisection_solver, hpre, hloop] using hok
      exact hq ▸ bisectionLoop_mem_of_le f tolerance maxIterations leftBound rightBound
        (f leftBound) q hab hloop

/-- Witness for C10: the successful run on [1, 2] with 23 iterations. -/
theorem bisection_result_in_interval_witness :
    (1 : ℚ) ≤ 11452379 / 8388608 ∧ (11452379 : ℚ) / 8388608 ≤ 2 :=
  bisection_result_in_interval 1 2 func_test (1 / 1000000) 23 (11452379 / 8388608)
    (by norm_num)
    (by
      have hpre : ¬ func_test 1 * func_test 2 > 0 := by norm_num [func_test]
      simp only [bisection_solver]
      rw [if_neg hpre, bisectionRun_fuel23])

/-- Sign algebra for the false-position else branch: if the bracket product
is ≤ 0, the newest value is nonzero, and the new value does not change sign
against it, the retained endpoint still brackets the new point. -/
theorem bracket_preserved_else (q0 q1 q : ℚ) (h01 : q0 * q1 ≤ 0) (hq1 : q1 ≠ 0)
    (h : ¬ q * q1 < 0) : q0 * q ≤ 0 := by
  have hqq1 : 0 ≤ q * q1 := not_lt.mp h
  rcases hq1.lt_or_lt with h1 | h1
  · have hq0 : 0 ≤ q0 := by nlinarith
    have hq : q ≤ 0 := by nlinarith
    exact mul_nonpos_iff.mpr (Or.inl ⟨hq0, hq⟩)
  · have hq0 : q0 ≤ 0 := by nlinarith
    have hq : 0 ≤ q := by nlinarith
    exact mul_nonpos_iff.mpr (Or.inr ⟨hq0, hq⟩)

/-- Generalised bracket invariant for the false-position iteration, carrying
the cached values q0 = f(p0), q1 = f(p1) through the recursion. -/
theorem fpTrace_invariant_aux (f : ℚ → ℚ) (tolerance : ℚ) (htol : 0 < tolerance) :
    ∀ (fuel : ℕ) (p0 p1 q0 q1 : ℚ), q0 = f p0 → q1 = f p1 → q0 * q1 ≤ 0 →
      ∀ pq ∈ falsePositionTrace f tolerance fuel p0 p1 q0 q1,
        f pq.1 * f pq.2 ≤ 0 := by
  intro fuel
  induction fuel with
  | zero => intro p0 p1 q0 q1 _ _ _ pq hpq; simp [falsePositionTrace] at hpq
  | succ n ih =>
    intro p0 p1 q0 q1 hq0 hq1 hprod pq hpq
    subst hq0
    subst hq1
    simp only [falsePositionTrace] at hpq
    set p : ℚ := p1 - f p1 * (p1 - p0) / (f p1 - f p0) with hp
    by_cases hconv : |p - p1| < tolerance
    · rw [if_pos hconv] at hpq
      simp at hpq
    · rw [if_neg hconv] at hpq
      have hq1ne : f p1 ≠ 0 := by
        intro h0
        apply hconv
        rw [hp, h0]
        simpa using htol
      by_cases hsign : f p * f p1 < 0
      · rw [if_pos hsign] at hpq
        rcases List.mem_cons.mp hpq with hhd | htl
        · rw [hhd]
          nlinarith
        · exact ih p1 p (f p1) (f p) rfl rfl (by nlinarith) pq htl
      · rw [if_neg hsign] at hpq
        have hnew : f p0 * f p ≤ 0 :=
          bracket_preserved_else (f p0) (f p1) (f p) hprod hq1ne hsign
        rcases List.mem_cons.mp hpq with hhd | htl
        · rw [hhd]
          exact hnew
        · exact ih p0 p (f p0) (f p) rfl rfl hnew pq htl

/-- C2: started from a bracketing pair (f(p0)·f(p1) ≤ 0), the false-position
iteration preserves the bracket invariant: the pair (p0, p1) held after each
iteration's update, for every iteration of the loop, still satisfies
f(p0)·f(p1) ≤ 0. -/
theorem false_position_bracket_invariant (f : ℚ → ℚ) (tolerance p0 p1 : ℚ)
    (fuel : ℕ) (htol : 0 < tolerance) (hpre : f p0 * f p1 ≤ 0) :
    ∀ pq ∈ falsePositionTrace f tolerance fuel p0 p1 (f p0) (f p1),
      f pq.1 * f pq.2 ≤ 0 :=
  fpTrace_invariant_aux f tolerance htol fuel p0 p1 (f p0) (f p1) rfl rfl hpre

/-- Witness for C2 at f(x) = x³ + 4x² − 10 with the bracket (1, 2): the
pair held after the first update, (2, 24/19), still brackets the root. -/
theorem false_position_bracket_invariant_witness :
    func_test 2 * func_test (24 / 19) ≤ 0 :=
  false_position_bracket_invariant func_test (1 / 1000000) 1 2 1 (by norm_num)
    (by norm_num [func_test]) (2, 24 / 19) (by with_unfolding_all decide)

/-- The near-zero-denominator message never coincides with the
iteration-exhaustion message, whatever numbers they carry. -/
theorem steff_messages_distinct (i N : ℕ) :
    ("Denominator near zero, method fails at iteration " ++ toString i : String)
      ≠ "No solution found after " ++ toString N ++ " iterations." := by
  intro h
  have h2 := congrArg String.data h
  rw [String.data_append, String.data_append, String.data_append] at h2
  have hD : ("Denominator near zero, method fails at iteration ".data)
      = 'D' :: "enominator near zero, method fails at iteration ".data := rfl
  have hN : ("No solution found after ".data)
      = 'N' :: "o solution found after ".data := rfl
  rw [hD, hN] at h2
  simp only [List.cons_append, List.append_assoc] at h2
  simp at h2

/-- C3: when the Aitken denominator p2 − 2·p1 + p0 is below 1e-12 in
absolute value at the first iteration, steffensen_solver fails with the
near-zero-denominator runtime error before dividing; exhausting the
iteration budget instead produces the no-solution runtime error; and the
two failures are distinguishable by the caller (they are never equal). -/
theorem steffensen_failure_kinds (f : ℚ → ℚ) (p0 tolerance : ℚ)
    (maxIterations : ℕ) (hmax : 1 ≤ maxIterations)
    (hden : |f (f p0) - 2 * f p0 + p0| < 1 / 10 ^ 12) :
    steffensen_solver p0 f tolerance maxIterations
      = .error (.runtime_error
          ("Denominator near zero, method fails at iteration " ++ toString 1)) ∧
    (∀ q0 : ℚ, steffensenLoop f tolerance maxIterations 0 q0
      = .error (.runtime_error
          ("No solution found after " ++ toString maxIterations ++ " iterations."))) ∧
    (∀ i N : ℕ,
      CppError.runtime_error
          ("Denominator near zero, method fails at iteration " ++ toString i)
        ≠ CppError.runtime_error
          ("No solution found after " ++ toString N ++ " iterations.")) := by
  refine ⟨?_, fun q0 => rfl, ?_⟩
  · obtain ⟨k, rfl⟩ : ∃ k, maxIterations = k + 1 :=
      ⟨maxIterations - 1, (Nat.succ_pred_eq_of_pos hmax).symm⟩
    simp only [steffensen_solver, steffensenLoop]
    rw [if_pos hden]
    have hk : k + 1 - k = 1 := by omega
    rw [hk]
  · intro i N h
    rw [CppError.runtime_error.injEq] at h
    exact steff_messages_distinct i N h

/-- Witness for C3: the identity map collapses the Aitken denominator at
the very first iteration. -/
theorem steffensen_failure_kinds_witness :
    (steffensen_solver 0 (fun x => x) 1 1
      = .error (.runtime_error
          ("Denominator near zero, method fails at iteration " ++ toString 1))) ∧
    (∀ q0 : ℚ, steffensenLoop (fun x => x) 1 1 0 q0
      = .error (.runtime_error
          ("No solution found after " ++ toString 1 ++ " iterations."))) ∧
    (∀ i N : ℕ,
      CppError.runtime_error
          ("Denominator near zero, method fails at iteration " ++ toString i)
        ≠ CppError.runtime_error
          ("No solution found after " ++ toString N ++ " iterations.")) :=
  steffensen_failure_kinds (fun x => x) 0 1 1 (by norm_num) (by norm_num)

/-- C5: each Newton-Raphson iteration computes fp = f(p0) and the central
difference fPrime = (f(p0+h) − f(p0−h)) / (2h) with the fixed default step
h = 1e-10 via the derivative helper; an exactly-zero fPrime raises the
InvalidArgument error instead of dividing; otherwise the new estimate is
p = p0 − fp/fPrime, returned when |p − p0| < tolerance, and the solver is
the loop started with the full iteration budget. -/
theorem newton_iteration_structure (f : ℚ → ℚ) (p0 tolerance : ℚ)
    (maxIterations fuel : ℕ) :
    (numerical_derivative f p0 (1 / 10 ^ 10)
      = (f (p0 + 1 / 10 ^ 10) - f (p0 - 1 / 10 ^ 10)) / (2 * (1 / 10 ^ 10))) ∧
    (numerical_derivative f p0 (1 / 10 ^ 10) = 0 →
      newtonLoop f tolerance maxIterations (fuel + 1) p0
        = .error (.invalid_argument
            ("Derivative is zero at the current guess; the algorithm cannot proceed."))) ∧
    (∀ h1 : numerical_derivative f p0 (1 / 10 ^ 10) ≠ 0,
      (|p0 - f p0 / numerical_derivative f p0 (1 / 10 ^ 10) - p0| < tolerance →
        newtonLoop f tolerance maxIterations (fuel + 1) p0
          = .ok (p0 - f p0 / numerical_derivative f p0 (1 / 10 ^ 10))) ∧
      (¬ |p0 - f p0 / numerical_derivative f p0 (1 / 10 ^ 10) - p0| < tolerance →
        newtonLoop f tolerance maxIterations (fuel + 1) p0
          = newtonLoop f tolerance maxIterations fuel
              (p0 - f p0 / numerical_derivative f p0 (1 / 10 ^ 10)))) ∧
    (newton_raphson_solver p0 f tolerance maxIterations
      = newtonLoop f tolerance maxIterations maxIterations p0) := by
  refine ⟨rfl, ?_, ?_, rfl⟩
  · intro h
    simp only [newtonLoop]
    rw [if_pos h]
  · intro h1
    constructor
    · intro hc
      simp only [newtonLoop]
      rw [if_neg h1, if_pos hc]
    · intro hc
      simp only [newtonLoop]
      rw [if_neg h1, if_neg hc]

/-- Witness for C5 at f(x) = x³ + 4x² − 10, p0 = 1. -/
theorem newton_iteration_structure_witness :
    (numerical_derivative func_test 1 (1 / 10 ^ 10)
      = (func_test (1 + 1 / 10 ^ 10) - func_test (1 - 1 / 10 ^ 10)) / (2 * (1 / 10 ^ 10))) ∧
    (numerical_derivative func_test 1 (1 / 10 ^ 10) = 0 →
      newtonLoop func_test (1 / 1000000) 3 (2 + 1) 1
        = .error (.invalid_argument
            ("Derivative is zero at the current guess; the algorithm cannot proceed."))) ∧
    (∀ h1 : numerical_derivative func_test 1 (1 / 10 ^ 10) ≠ 0,
      (|1 - func_test 1 / numerical_derivative func_test 1 (1 / 10 ^ 10) - 1| < 1 / 1000000 →
        newtonLoop func_test (1 / 1000000) 3 (2 + 1) 1
          = .ok (1 - func_test 1 / numerical_derivative func_test 1 (1 / 10 ^ 10))) ∧
      (¬ |1 - func_test 1 / numerical_derivative func_test 1 (1 / 10 ^ 10) - 1| < 1 / 1000000 →
        newtonLoop func_test (1 / 1000000) 3 (2 + 1) 1
          = newtonLoop func_test (1 / 1000000) 3 2
              (1 - func_test 1 / numerical_derivative func_test 1 (1 / 10 ^ 10)))) ∧
    (newton_raphson_solver 1 func_test (1 / 1000000) 3
      = newtonLoop func_test (1 / 1000000) 3 3 1) :=
  newton_iteration_structure func_test 1 (1 / 1000000) 3 2

/-- C6: the two secant-style loops test convergence asymmetrically: the
secant iteration returns the new estimate p exactly when |p − p0| < tolerance
(against the older retained estimate), while the false-position iteration
returns p exactly when |p − p1| < tolerance (against the newer one). -/
theorem convergence_test_asymmetry (f : ℚ → ℚ) (tolerance p0 p1 q0 q1 : ℚ)
    (fuel : ℕ) :
    (|p1 - q1 * (p1 - p0) / (q1 - q0) - p0| < tolerance →
      secantLoop f tolerance (fuel + 1) p0 p1 q0 q1
        = some (p1 - q1 * (p1 - p0) / (q1 - q0))) ∧
    (¬ |p1 - q1 * (p1 - p0) / (q1 - q0) - p0| < tolerance →
      secantLoop f tolerance (fuel + 1) p0 p1 q0 q1
        = secantLoop f tolerance fuel p1 (p1 - q1 * (p1 - p0) / (q1 - q0)) q1
            (f (p1 - q1 * (p1 - p0) / (q1 - q0)))) ∧
    (|p1 - q1 * (p1 - p0) / (q1 - q0) - p1| < tolerance →
      falsePositionLoop f tolerance (fuel + 1) p0 p1 q0 q1
        = some (p1 - q1 * (p1 - p0) / (q1 - q0))) ∧
    (¬ |p1 - q1 * (p1 - p0) / (q1 - q0) - p1| < tolerance →
      falsePositionLoop f tolerance (fuel + 1) p0 p1 q0 q1
        = if f (p1 - q1 * (p1 - p0) / (q1 - q0)) * q1 < 0
          then falsePositionLoop f tolerance fuel p1 (p1 - q1 * (p1 - p0) / (q1 - q0)) q1
                 (f (p1 - q1 * (p1 - p0) / (q1 - q0)))
          else falsePositionLoop f tolerance fuel p0 (p1 - q1 * (p1 - p0) / (q1 - q0)) q0
                 (f (p1 - q1 * (p1 - p0) / (q1 - q0)))) := by
  refine ⟨?_, ?_, ?_, ?_⟩
  · intro h
    simp only [secantLoop]
    rw [if_pos h]
  · intro h
    simp only [secantLoop]
    rw [if_neg h]
  · intro h
    simp only [falsePositionLoop]
    rw [if_pos h]
  · intro h
    simp only [falsePositionLoop]
    rw [if_neg h]

/-- Witness for C6 with the cubic's data at (p0, p1) = (1, 2). -/
theorem convergence_test_asymmetry_witness :
    (|2 - 14 * (2 - 1) / (14 - -5) - 1| < (1 : ℚ) / 1000000 →
      secantLoop func_test (1 / 1000000) (4 + 1) 1 2 (-5) 14
        = some (2 - 14 * (2 - 1) / (14 - -5))) ∧
    (¬ |2 - 14 * (2 - 1) / (14 - -5) - 1| < (1 : ℚ) / 1000000 →
      secantLoop func_test (1 / 1000000) (4 + 1) 1 2 (-5) 14
        = secantLoop func_test (1 / 1000000) 4 2 (2 - 14 * (2 - 1) / (14 - -5)) 14
            (func_test (2 - 14 * (2 - 1) / (14 - -5)))) ∧
    (|2 - 14 * (2 - 1) / (14 - -5) - 2| < (1 : ℚ) / 1000000 →
      falsePositionLoop func_test (1 / 1000000) (4 + 1) 1 2 (-5) 14
        = some (2 - 14 * (2 - 1) / (14 - -5))) ∧
    (¬ |2 - 14 * (2 - 1) / (14 - -5) - 2| < (1 : ℚ) / 1000000 →
      falsePositionLoop func_test (1 / 1000000) (4 + 1) 1 2 (-5) 14
        = if func_test (2 - 14 * (2 - 1) / (14 - -5)) * 14 < 0
          then falsePositionLoop func_test (1 / 1000000) 4 2 (2 - 14 * (2 - 1) / (14 - -5)) 14
                 (func_test (2 - 14 * (2 - 1) / (14 - -5)))
          else falsePositionLoop func_test (1 / 1000000) 4 1 (2 - 14 * (2 - 1) / (14 - -5)) (-5)
                 (func_test (2 - 14 * (2 - 1) / (14 - -5)))) :=
  convergence_test_asymmetry func_test (1 / 1000000) 1 2 (-5) 14 4

/-- C7: the secant update divides by q1 − q0 with no zero-denominator
guard: when f(p0) = f(p1) the first iteration's denominator is exactly
zero, the iteration still executes the update formula and proceeds, and
the only error secant_solver can ever surface is the iteration-exhaustion
runtime error — no dedicated degenerate-denominator failure exists. -/
theorem secant_no_denominator_guard (f : ℚ → ℚ) (p0 p1 tolerance : ℚ)
    (maxIterations fuel : ℕ) (hq : f p0 = f p1) :
    f p1 - f p0 = 0 ∧
    (secantLoop f tolerance (fuel + 1) p0 p1 (f p0) (f p1)
      = if |p1 - f p1 * (p1 - p0) / (f p1 - f p0) - p0| < tolerance
        then some (p1 - f p1 * (p1 - p0) / (f p1 - f p0))
        else secantLoop f tolerance fuel p1 (p1 - f p1 * (p1 - p0) / (f p1 - f p0)) (f p1)
               (f (p1 - f p1 * (p1 - p0) / (f p1 - f p0)))) ∧
    (∀ e : CppError, secant_solver p0 p1 f tolerance maxIterations = .error e →
      e = .runtime_error
            ("No solution found after " ++ toString maxIterations ++ " steps.")) := by
  refine ⟨by rw [hq]; ring, ?_, ?_⟩
  · simp only [secantLoop]
  · intro e he
    unfold secant_solver at he
    rcases h : secantLoop f tolerance (maxIterations - 1) p0 p1 (f p0) (f p1) with _ | p
    · rw [h] at he
      simp only [Except.error.injEq] at he
      exact he.symm
    · rw [h] at he
      simp at he

/-- Witness for C7: a constant function equalises the two cached values,
so the very first denominator is zero, yet the run ends with the ordinary
exhaustion error. -/
theorem secant_no_denominator_guard_witness :
    ((fun _ : ℚ => (1 : ℚ)) 1 - (fun _ : ℚ => (1 : ℚ)) 0 = 0) ∧
    (secantLoop (fun _ : ℚ => (1 : ℚ)) (1 / 1000000) (0 + 1) 0 1
        ((fun _ : ℚ => (1 : ℚ)) 0) ((fun _ : ℚ => (1 : ℚ)) 1)
      = if |1 - (fun _ : ℚ => (1 : ℚ)) 1 * (1 - 0)
              / ((fun _ : ℚ => (1 : ℚ)) 1 - (fun _ : ℚ => (1 : ℚ)) 0) - 0| < 1 / 1000000
        then some (1 - (fun _ : ℚ => (1 : ℚ)) 1 * (1 - 0)
              / ((fun _ : ℚ => (1 : ℚ)) 1 - (fun _ : ℚ => (1 : ℚ)) 0))
        else secantLoop (fun _ : ℚ => (1 : ℚ)) (1 / 1000000) 0 1
               (1 - (fun _ : ℚ => (1 : ℚ)) 1 * (1 - 0)
                 / ((fun _ : ℚ => (1 : ℚ)) 1 - (fun _ : ℚ => (1 : ℚ)) 0))
               ((fun _ : ℚ => (1 : ℚ)) 1)
               ((fun _ : ℚ => (1 : ℚ)) (1 - (fun _ : ℚ => (1 : ℚ)) 1 * (1 - 0)
                 / ((fun _ : ℚ => (1 : ℚ)) 1 - (fun _ : ℚ => (1 : ℚ)) 0)))) ∧
    (∀ e : CppError, secant_solver 0 1 (fun _ : ℚ => (1 : ℚ)) (1 / 1000000) 2 = .error e →
      e = .runtime_error ("No solution found after " ++ toString 2 ++ " steps.")) :=
  secant_no_denominator_guard (fun _ : ℚ => (1 : ℚ)) 0 1 (1 / 1000000) 2 0 rfl

/-- C8 counterexample: with maxIterations = 20 the bisection run on
f(x) = x³ + 4x² − 10 over [1, 2] at tolerance 1e-6 does NOT return: it
raises the ConvergenceFailure runtime error, refuting "within ~20
iterations". -/
theorem bisection_cubic_20_convergence_failure :
    bisection_solver 1 2 func_test (1 / 1000000) 20
      = .error (.runtime_error
          ("No solution found after " ++ toString 20 ++ " iterations.")) := by
  have h20 : bisectionLoop func_test (1 / 1000000) 20 1 2 (func_test 1) = none :=
    bisectionLoop_none_mono func_test (1 / 1000000) 22 20 (by norm_num) 1 2 (func_test 1)
      bisectionRun_fuel22
  have hpre : ¬ func_test 1 * func_test 2 > 0 := by norm_num [func_test]
  simp only [bisection_solver]
  rw [if_neg hpre, h20]

/-- C8 amended: the run returns p = 11452379/8388608 ≈ 1.3652300 — within
1e-6 of the true root ≈ 1.365230013 and with residual below tolerance — but
only at loop iteration 23 (22 iterations are not enough). -/
theorem bisection_cubic_converges_at_iteration_23 :
    bisection_solver 1 2 func_test (1 / 1000000) 23 = .ok ((11452379 : ℚ) / 8388608) ∧
    bisectionLoop func_test (1 / 1000000) 22 1 2 (func_test 1) = none ∧
    |(11452379 : ℚ) / 8388608 - 1365230013 / 1000000000| < 1 / 1000000 ∧
    |func_test ((11452379 : ℚ) / 8388608)| < 1 / 1000000 := by
  refine ⟨?_, bisectionRun_fuel22, ?_, ?_⟩
  · have hpre : ¬ func_test 1 * func_test 2 > 0 := by norm_num [func_test]
    simp only [bisection_solver]
    rw [if_neg hpre, bisectionRun_fuel23]
  · rw [abs_sub_lt_iff]
    constructor <;> norm_num
  · rw [abs_lt]
    constructor <;> norm_num [func_test]

/-- One-iteration exhaustion of the bisection loop when the first residual
test fails. -/
theorem bisectionLoop_one_none (f : ℚ → ℚ) (tol a b FA : ℚ)
    (hconv : ¬ |f (a + (b - a) / 2)| < tol) :
    bisectionLoop f tol 1 a b FA = none := by
  show bisectionLoop f tol (0 + 1) a b FA = none
  simp only [bisectionLoop]
  rw [if_neg hconv]
  split <;> rfl

/-- One-iteration exhaustion of the fixed-point loop. -/
theorem fixedPointLoop_one_none (f : ℚ → ℚ) (tol p0 : ℚ)
    (h : ¬ |f p0 - p0| < tol) :
    fixedPointLoop f tol 1 p0 = none := by
  show fixedPointLoop f tol (0 + 1) p0 = none
  simp only [fixedPointLoop]
  rw [if_neg h]

/-- One-iteration exhaustion of the Newton-Raphson loop. -/
theorem newtonLoop_one_failure (f : ℚ → ℚ) (tol p0 : ℚ)
    (h0 : numerical_derivative f p0 (1 / 10 ^ 10) ≠ 0)
    (h1 : ¬ |p0 - f p0 / numerical_derivative f p0 (1 / 10 ^ 10) - p0| < tol) :
    newtonLoop f tol 1 1 p0
      = .error (.runtime_error ("No solution found after " ++ toString 1 ++ " steps.")) := by
  show newtonLoop f tol 1 (0 + 1) p0 = _
  simp only [newtonLoop]
  rw [if_neg h0, if_neg h1]

/-- One-iteration exhaustion of the Steffensen loop. -/
theorem steffensenLoop_one_failure (f : ℚ → ℚ) (tol p0 : ℚ)
    (h0 : ¬ |f (f p0) - 2 * f p0 + p0| < 1 / 10 ^ 12)
    (h1 : ¬ |p0 - (f p0 - p0) * (f p0 - p0) / (f (f p0) - 2 * f p0 + p0) - p0| < tol) :
    steffensenLoop f tol 1 1 p0
      = .error (.runtime_error
          ("No solution found after " ++ toString 1 ++ " iterations.")) := by
  show steffensenLoop f tol 1 (0 + 1) p0 = _
  simp only [steffensenLoop]
  rw [if_neg h0, if_neg h1]

/-- C9: with maxIterations = 0, and with maxIterations = 1 at the boundary,
every solver whose precondition check passes raises the ConvergenceFailure
runtime error, provided the inputs are non-trivial (the single reachable
tolerance test, if any, fails and no other mid-iteration failure fires). -/
theorem max_iterations_boundary (f : ℚ → ℚ) (a b s0 s1 p0 tolerance : ℚ)
    (hbis : f a * f b ≤ 0) (hfp : f s0 * f s1 ≤ 0)
    (hb1 : ¬ |f (a + (b - a) / 2)| < tolerance)
    (hx1 : ¬ |f p0 - p0| < tolerance)
    (hn0 : numerical_derivative f p0 (1 / 10 ^ 10) ≠ 0)
    (hn1 : ¬ |p0 - f p0 / numerical_derivative f p0 (1 / 10 ^ 10) - p0| < tolerance)
    (hs0 : ¬ |f (f p0) - 2 * f p0 + p0| < 1 / 10 ^ 12)
    (hs1 : ¬ |p0 - (f p0 - p0) * (f p0 - p0) / (f (f p0) - 2 * f p0 + p0) - p0| < tolerance) :
    (bisection_solver a b f tolerance 0
      = .error (.runtime_error ("No solution found after " ++ toString 0 ++ " iterations."))) ∧
    (bisection_solver a b f tolerance 1
      = .error (.runtime_error ("No solution found after " ++ toString 1 ++ " iterations."))) ∧
    (fixed_point_solver p0 f tolerance 0
      = .error (.runtime_error ("No solution found after " ++ toString 0 ++ " steps."))) ∧
    (fixed_point_solver p0 f tolerance 1
      = .error (.runtime_error ("No solution found after " ++ toString 1 ++ " steps."))) ∧
    (newton_raphson_solver p0 f tolerance 0
      = .error (.runtime_error ("No solution found after " ++ toString 0 ++ " steps."))) ∧
    (newton_raphson_solver p0 f tolerance 1
      = .error (.runtime_error ("No solution found after " ++ toString 1 ++ " steps."))) ∧
    (secant_solver s0 s1 f tolerance 0
      = .error (.runtime_error ("No solution found after " ++ toString 0 ++ " steps."))) ∧
    (secant_solver s0 s1 f tolerance 1
      = .error (.runtime_error ("No solution found after " ++ toString 1 ++ " steps."))) ∧
    (false_position_solver s0 s1 f tolerance 0
      = .error (.runtime_error ("No solution found after " ++ toString 0 ++ " steps."))) ∧
    (false_position_solver s0 s1 f tolerance 1
      = .error (.runtime_error ("No solution found after " ++ toString 1 ++ " steps."))) ∧
    (steffensen_solver p0 f tolerance 0
      = .error (.runtime_error ("No solution found after " ++ toString 0 ++ " iterations."))) ∧
    (steffensen_solver p0 f tolerance 1
      = .error (.runtime_error ("No solution found after " ++ toString 1 ++ " iterations."))) := by
  have hngt : ¬ f a * f b > 0 := not_lt.mpr hbis
  have hngt2 : ¬ f s0 * f s1 > 0 := not_lt.mpr hfp
  refine ⟨?_, ?_, ?_, ?_, ?_, ?_, ?_, ?_, ?_, ?_, ?_, ?_⟩
  · simp only [bisection_solver]
    rw [if_neg hngt]
    rfl
  · simp only [bisection_solver]
    rw [if_neg hngt, bisectionLoop_one_none f tolerance a b (f a) hb1]
  · rfl
  · simp only [fixed_point_solver]
    rw [fixedPointLoop_one_none f tolerance p0 hx1]
  · rfl
  · exact newtonLoop_one_failure f tolerance p0 hn0 hn1
  · rfl
  · rfl
  · simp only [false_position_solver]
    rw [if_neg hngt2]
    rfl
  · simp only [false_position_solver]
    rw [if_neg hngt2]
    rfl
  · rfl
  · exact steffensenLoop_one_failure f tolerance p0 hs0 hs1

/-- Witness for C9 at f(x) = x³ + 4x² − 10, bracket [1, 2], seed 1. -/
theorem max_iterations_boundary_witness :
    (bisection_solver 1 2 func_test (1 / 1000000) 0
      = .error (.runtime_error ("No solution found after " ++ toString 0 ++ " iterations."))) ∧
    (bisection_solver 1 2 func_test (1 / 1000000) 1
      = .error (.runtime_error ("No solution found after " ++ toString 1 ++ " iterations."))) ∧
    (fixed_point_solver 1 func_test (1 / 1000000) 0
      = .error (.runtime_error ("No solution found after " ++ toString 0 ++ " steps."))) ∧
    (fixed_point_solver 1 func_test (1 / 1000000) 1
      = .error (.runtime_error ("No solution found after " ++ toString 1 ++ " steps."))) ∧
    (newton_raphson_solver 1 func_test (1 / 1000000) 0
      = .error (.runtime_error ("No solution found after " ++ toString 0 ++ " steps."))) ∧
    (newton_raphson_solver 1 func_test (1 / 1000000) 1
      = .error (.runtime_error ("No solution found after " ++ toString 1 ++ " steps."))) ∧
    (secant_solver 1 2 func_test (1 / 1000000) 0
      = .error (.runtime_error ("No solution found after " ++ toString 0 ++ " steps."))) ∧
    (secant_solver 1 2 func_test (1 / 1000000) 1
      = .error (.runtime_error ("No solution found after " ++ toString 1 ++ " steps."))) ∧
    (false_position_solver 1 2 func_test (1 / 1000000) 0
      = .error (.runtime_error ("No solution found after " ++ toString 0 ++ " steps."))) ∧
    (false_position_solver 1 2 func_test (1 / 1000000) 1
      = .error (.runtime_error ("No solution found after " ++ toString 1 ++ " steps."))) ∧
    (steffensen_solver 1 func_test (1 / 1000000) 0
      = .error (.runtime_error ("No solution found after " ++ toString 0 ++ " iterations."))) ∧
    (steffensen_solver 1 func_test (1 / 1000000) 1
      = .error (.runtime_error ("No solution found after " ++ toString 1 ++ " iterations."))) :=
  max_iterations_boundary func_test 1 2 1 2 1 (1 / 1000000)
    (by norm_num [func_test]) (by norm_num [func_test])
    (by with_unfolding_all decide) (by with_unfolding_all decide)
    (by with_unfolding_all decide) (by with_unfolding_all decide)
    (by with_unfolding_all decide) (by with_unfolding_all decide)
